import Mathlib

/-!
Verification of the lender-matching backend's core:

* `backend/services/matching_service.py` — the rule evaluator
  (`evaluate_rule`) and the per-policy fit scorer (`match_application`);
* `backend/utils/validators.py` — the type check `_validate_type`;
* `backend/services/ingestion_service.py` — PDF ingestion: schema
  reconciliation followed by policy/rule materialization.

JSON values flowing through the system (form data, rule thresholds) are
embedded as `Value`: a scalar (null, bool, int, float, string) or a list of
scalars, following the data model ("JSON scalar|list").  Python semantics
relevant to the evaluator are embedded explicitly: `bool` is a subclass of
`int` (so it is numeric in comparisons and passes `isinstance(v, (int,
float))`), cross-type ordering comparisons raise `TypeError` (embedded as
`Except.error`), `==` never raises, and `x in s` on a string requires `x`
to be a string.

Two deliberate approximations, on which no theorem below depends:
* Python `float` values are embedded as exact rationals (`ℚ`).  Python
  compares ints and floats exactly, so comparison semantics are faithful;
  the *string form* of a float (shortest round-trip repr) is not modelled.
  Float *arithmetic* in the scorer is likewise not modelled: the scorer
  below uses exact integer arithmetic; the input at which the Python
  code's binary-float arithmetic diverges from the exact value is
  recorded in the theorem evaluating the scorer at total 29 of max 100.
* `repr` of a string (used only inside the string form of a *list*) is
  embedded as wrapping in single quotes, without Python's quote-selection
  and escaping.
-/

namespace LenderMatching

/-- A JSON scalar as Python represents it: `None`, `bool`, `int`, `float`
(embedded as an exact rational) or `str`. -/
inductive Scalar where
  | null : Scalar
  | bool (b : Bool) : Scalar
  | int (n : Int) : Scalar
  | float (q : ℚ) : Scalar
  | str (s : String) : Scalar
deriving DecidableEq

/-- A JSON value of the data model: a scalar or a list of scalars. -/
inductive Value where
  | scalar (x : Scalar) : Value
  | list (xs : List Scalar) : Value
deriving DecidableEq

/-- The numeric view Python takes of a scalar in comparisons: `bool` is an
`int` subclass (`True == 1`), ints and floats compare exactly. `None` and
strings are not numeric. -/
def Scalar.toRat? : Scalar → Option ℚ
  | .bool b => some (if b then 1 else 0)
  | .int n => some (n : ℚ)
  | .float q => some q
  | _ => none

/-- Python `==` on two scalars: numeric scalars compare by value
(`True == 1`, `1 == 1.0`); otherwise structural equality (`"1" == 1` is
`False`, `None == None` is `True`). Never raises. -/
def pyEqScalar (a b : Scalar) : Bool :=
  match a.toRat?, b.toRat? with
  | some x, some y => decide (x = y)
  | _, _ => decide (a = b)

/-- Python `==` on two values: lists compare elementwise, a list never
equals a scalar. -/
def pyEqValue (a b : Value) : Bool :=
  match a, b with
  | .scalar x, .scalar y => pyEqScalar x y
  | .list xs, .list ys =>
      xs.length == ys.length && (List.zip xs ys).all fun p => pyEqScalar p.1 p.2
  | _, _ => false

/-- Python ordering (`<`, `>`, `<=`, `>=`) on two scalars: numeric pairs
compare by value, strings compare lexicographically by code point, any
other pair raises `TypeError` (`Except.error ()`). -/
def pyCmpScalar (a b : Scalar) : Except Unit Ordering :=
  match a.toRat?, b.toRat? with
  | some x, some y => .ok (if x < y then .lt else if x = y then .eq else .gt)
  | _, _ =>
    match a, b with
    | .str s, .str t => .ok (if s < t then .lt else if s = t then .eq else .gt)
    | _, _ => .error ()

/-- Python list ordering: walk to the first pair of elements that are not
`==`-equal and order by that pair (which may raise); a strict prefix is
smaller. -/
def pyCmpList : List Scalar → List Scalar → Except Unit Ordering
  | [], [] => .ok .eq
  | [], _ :: _ => .ok .lt
  | _ :: _, [] => .ok .gt
  | x :: xs, y :: ys =>
      if pyEqScalar x y then pyCmpList xs ys else pyCmpScalar x y

/-- Python ordering on two values: a scalar and a list never order
(`TypeError`). -/
def pyCmpValue (a b : Value) : Except Unit Ordering :=
  match a, b with
  | .scalar x, .scalar y => pyCmpScalar x y
  | .list xs, .list ys => pyCmpList xs ys
  | _, _ => .error ()

/-- Python `repr` of a scalar (the form used inside the string form of a
list). Floats and string escaping are approximated, see the module
comment. -/
def Scalar.pyRepr : Scalar → String
  | .null => "None"
  | .bool true => "True"
  | .bool false => "False"
  | .int n => toString n
  | .float q => toString q
  | .str s => "'" ++ s ++ "'"

/-- Python `str()` of a value: a string is itself, any other scalar is its
repr, a list is its bracketed, comma-separated element reprs. -/
def pyStr : Value → String
  | .scalar (.str s) => s
  | .scalar x => x.pyRepr
  | .list xs => "[" ++ String.intercalate ", " (xs.map Scalar.pyRepr) ++ "]"

/-- Python substring test `needle in hay` on character lists. -/
def listContains (needle : List Char) : List Char → Bool
  | [] => needle.isEmpty
  | c :: rest => needle.isPrefixOf (c :: rest) || listContains needle rest

/-- Python `needle in hay` for strings: `needle` occurs as a contiguous
substring of `hay` (the empty string occurs in every string). -/
def strContains (hay needle : String) : Bool :=
  listContains needle.data hay.data

/-- Python `a in t`: list membership by `==`, string containment when both
sides are strings, `TypeError` otherwise (a string's `in` requires a
string left operand; scalars are not iterable). -/
def pyIn (a t : Value) : Except Unit Bool :=
  match t with
  | .list ys => .ok (ys.any fun y => pyEqValue (.scalar y) a)
  | .scalar (.str ts) =>
      match a with
      | .scalar (.str s) => .ok (strContains ts s)
      | _ => .error ()
  | .scalar _ => .error ()

/-- The eight comparison operators of `models/policy_rules.py`
(`RuleOperator`). -/
inductive RuleOperator where
  | GT : RuleOperator
  | LT : RuleOperator
  | EQ : RuleOperator
  | NEQ : RuleOperator
  | GTE : RuleOperator
  | LTE : RuleOperator
  | IN : RuleOperator
  | CONTAINS : RuleOperator
deriving DecidableEq

/-- The `.value` string of each `RuleOperator` enum member. -/
def RuleOperator.value : RuleOperator → String
  | .GT => "gt"
  | .LT => "lt"
  | .EQ => "eq"
  | .NEQ => "neq"
  | .GTE => "gte"
  | .LTE => "lte"
  | .IN => "in"
  | .CONTAINS => "contains"

/-- The two rule kinds of `models/policy_rules.py` (`RuleType`).  The
Python code compares `rule.rule_type.value == "eligibility"`; `.value` is
injective on this two-member enum, so the embedding compares the members
directly. -/
inductive RuleType where
  | ELIGIBILITY : RuleType
  | SCORING : RuleType
deriving DecidableEq

/-- The five parameter data types of `models/parameter_definitions.py`
(`DataType`). -/
inductive DataType where
  | STRING : DataType
  | NUMBER : DataType
  | BOOLEAN : DataType
  | SELECT : DataType
  | CURRENCY : DataType
deriving DecidableEq

/-- One row of `policy_rules` as `evaluate_rule` reads it (`rule.id` is
stringified into the record, so it is kept as a string here). -/
structure PolicyRule where
  id : String
  parameter_key : String
  operator : RuleOperator
  value_comparison : Value
  rule_type : RuleType
  weight : Int
  failure_reason : Option String
deriving DecidableEq

/-- The evaluation dictionary `evaluate_rule` returns.  A Python `None` in
`actual_value` is `Value.scalar Scalar.null`; a `None` in `failure_reason`
is `none`. -/
structure EvalRecord where
  rule_id : String
  parameter_key : String
  parameter_label : String
  operator : String
  passed : Bool
  actual_value : Value
  threshold_value : Value
  failure_reason : Option String
deriving DecidableEq

/-- Lines 164-179 of `matching_service.py`: dispatch on the operator.
`Except.error ()` stands for a raised exception, which the caller's
`try/except` turns into `passed = False`. -/
def applyOperator : RuleOperator → Value → Value → Except Unit Bool
  | .GT, a, t => (pyCmpValue a t).map fun o => o == Ordering.gt
  | .LT, a, t => (pyCmpValue a t).map fun o => o == Ordering.lt
  | .EQ, a, t => .ok (pyEqValue a t)
  | .NEQ, a, t => .ok (! pyEqValue a t)
  | .GTE, a, t => (pyCmpValue a t).map fun o => o != Ordering.lt
  | .LTE, a, t => (pyCmpValue a t).map fun o => o != Ordering.gt
  | .IN, a, t => pyIn a t
  | .CONTAINS, a, t =>
      match t with
      | .scalar (.str ts) => .ok (strContains (pyStr a) ts)
      | _ => .error ()

/-- Python `param_labels.get(parameter_key, parameter_key)`. -/
def parameter_label_of (param_labels : List (String × String)) (key : String) : String :=
  (param_labels.lookup key).getD key

/-- The record lines 148-158 of `matching_service.py` build when
`form_data.get(parameter_key)` is `None`. -/
def missing_record (rule : PolicyRule) (param_labels : List (String × String)) : EvalRecord :=
  { rule_id := rule.id
    parameter_key := rule.parameter_key
    parameter_label := parameter_label_of param_labels rule.parameter_key
    operator := rule.operator.value
    passed := false
    actual_value := Value.scalar Scalar.null
    threshold_value := rule.value_comparison
    failure_reason := some ("Missing required field: " ++ parameter_label_of param_labels rule.parameter_key) }

/-- The synthesized failure reason of line 189:
`f"{label}: {actual} does not meet requirement ({op} {threshold})"`. -/
def synthesized_reason (label : String) (actual threshold : Value) (operator : RuleOperator) : String :=
  label ++ ": " ++ pyStr actual ++ " does not meet requirement (" ++ operator.value ++ " " ++ pyStr threshold ++ ")"

/-- `evaluate_rule` of `matching_service.py` (lines 126-200).  `form_data`
is the application's dict (`.get` maps an absent key to Python `None`,
which is indistinguishable from a stored JSON null); `param_labels` maps
parameter keys to display labels.  An exception while applying the
operator is caught and leaves `passed = False`; a rule-authored
`failure_reason` is used only when truthy (non-empty). -/
def evaluate_rule (rule : PolicyRule) (form_data : List (String × Value))
    (param_labels : List (String × String)) : EvalRecord :=
  let parameter_key := rule.parameter_key
  let actual_value := (form_data.lookup parameter_key).getD (Value.scalar Scalar.null)
  let threshold_value := rule.value_comparison
  if actual_value = Value.scalar Scalar.null then
    missing_record rule param_labels
  else
    let passed :=
      match applyOperator rule.operator actual_value threshold_value with
      | .ok b => b
      | .error _ => false
    let label := parameter_label_of param_labels parameter_key
    let failure_reason : Option String :=
      if passed then none
      else
        match rule.failure_reason with
        | some fr =>
            if fr = "" then some (synthesized_reason label actual_value threshold_value rule.operator)
            else some fr
        | none => some (synthesized_reason label actual_value threshold_value rule.operator)
    { rule_id := rule.id
      parameter_key := parameter_key
      parameter_label := label
      operator := rule.operator.value
      passed := passed
      actual_value := actual_value
      threshold_value := threshold_value
      failure_reason := failure_reason }

/-- A policy together with its ordered rules, as `match_application` loads
it. -/
structure Policy where
  id : String
  rules : List PolicyRule
deriving DecidableEq

/-- The per-policy loop accumulator of `match_application` (lines 64-67 of
`matching_service.py`): `evaluations = []`, `eligible = True`,
`total_score = 0`, `max_score = 0`. -/
structure LoopState where
  evaluations : List EvalRecord
  eligible : Bool
  total_score : Int
  max_score : Int
deriving DecidableEq

/-- One iteration of the per-rule loop (lines 69-81): append the
evaluation, clear the eligibility flag on a failed eligibility rule, and
accumulate scoring weights. -/
def policy_step (form_data : List (String × Value)) (param_labels : List (String × String))
    (st : LoopState) (rule : PolicyRule) : LoopState :=
  let evaluation := evaluate_rule rule form_data param_labels
  let st := { st with evaluations := st.evaluations ++ [evaluation] }
  let st :=
    if rule.rule_type = RuleType.ELIGIBILITY ∧ evaluation.passed = false then
      { st with eligible := false }
    else st
  if rule.rule_type = RuleType.SCORING then
    { st with
      max_score := st.max_score + rule.weight
      total_score := if evaluation.passed then st.total_score + rule.weight else st.total_score }
  else st

/-- The match result row stored per policy. -/
structure MatchResult where
  policy_id : String
  eligible : Bool
  fit_score : Int
  evaluations : List EvalRecord
deriving DecidableEq

/-- Lines 83-87: `fit_score = int((total_score / max_score) * 100)` when
`max_score > 0`, else `100 if eligible else 0`.  The embedding computes
the quotient exactly: `(total/max)*100` equals the rational
`(total*100)/max`, and Python's `int()` truncates toward zero, which is
`Int.div`.  The Python code evaluates `(total/max)*100` in binary
floating point, which differs from the exact value on some inputs — see
`match_policy_scenario_29_100`. -/
def fit_score_of (eligible : Bool) (total_score max_score : Int) : Int :=
  if max_score > 0 then Int.tdiv (total_score * 100) max_score
  else if eligible then 100 else 0

/-- The body of the per-policy loop of `match_application` (lines 63-96):
evaluate every rule in order, fold the eligibility flag and scores, and
build the stored match result. -/
def match_policy (policy : Policy) (form_data : List (String × Value))
    (param_labels : List (String × String)) : MatchResult :=
  let st := policy.rules.foldl (policy_step form_data param_labels)
    { evaluations := [], eligible := true, total_score := 0, max_score := 0 }
  { policy_id := policy.id
    eligible := st.eligible
    fit_score := fit_score_of st.eligible st.total_score st.max_score
    evaluations := st.evaluations }

/-- `match_application`'s fan-out: one match result per policy, policies
independent of one another. -/
def match_application (policies : List Policy) (form_data : List (String × Value))
    (param_labels : List (String × String)) : List MatchResult :=
  policies.map fun p => match_policy p form_data param_labels

/-- `_validate_type` of `backend/utils/validators.py` (lines 57-75).
`isinstance(value, str)` holds exactly for string scalars;
`isinstance(value, (int, float))` holds for int and float scalars *and
for booleans*, because Python's `bool` is a subclass of `int`;
`isinstance(value, bool)` holds exactly for booleans.  The final
`else: return True` branch is unreachable for the five-member `DataType`
enum, all of whose members the earlier branches handle. -/
def _validate_type (value : Value) (expected_type : DataType) : Bool :=
  if expected_type = DataType.STRING ∨ expected_type = DataType.SELECT then
    match value with
    | .scalar (.str _) => true
    | _ => false
  else if expected_type = DataType.NUMBER ∨ expected_type = DataType.CURRENCY then
    match value with
    | .scalar (.int _) => true
    | .scalar (.float _) => true
    | .scalar (.bool _) => true
    | _ => false
  else if expected_type = DataType.BOOLEAN then
    match value with
    | .scalar (.bool _) => true
    | _ => false
  else
    true

/-- One row of `parameter_definitions`: the registry.  `key_name` carries
a database-level UNIQUE constraint; `policy_rules.parameter_key` is a
foreign key into it. -/
structure ParameterDefinition where
  key_name : String
  display_label : String
  data_type : DataType
  options : Option Value
  description : Option String
  is_active : Bool
deriving DecidableEq

/-- An inline new-parameter definition in the extraction output
(`new_parameters` items of `gemini_service.extract_rules_from_pdf`):
a plain dict whose `data_type` is a raw string, and whose `options` and
`description` may be absent (`dict.get`). -/
structure NewParameter where
  key_name : String
  display_label : String
  data_type : String
  options : Option Value
  description : Option String
deriving DecidableEq

/-- A rule dict in the extraction output (`rules` items): `weight` and
`reason` may be absent (`.get("weight", 0)` / `.get("reason")`). -/
structure RuleData where
  parameter : String
  operator : String
  value : Value
  type : String
  weight : Option Int
  reason : Option String
deriving DecidableEq

/-- The parsed extraction result `{"rules": [...], "new_parameters":
[...]}`.  The Gemini service raises (`ValueError`) on unparsable output,
so a failed or unparsable extraction reaches `process_lender_pdf` as an
exception, embedded as `Except.error`. -/
structure ExtractionResult where
  new_parameters : List NewParameter
  rules : List RuleData
deriving DecidableEq

/-- `convert_data_type` of `ingestion_service.py` (lines 23-32): lowercase
lookup with default `DataType.STRING`. -/
def convert_data_type (value : String) : DataType :=
  match value.toLower with
  | "string" => DataType.STRING
  | "number" => DataType.NUMBER
  | "boolean" => DataType.BOOLEAN
  | "select" => DataType.SELECT
  | "currency" => DataType.CURRENCY
  | _ => DataType.STRING

/-- `convert_rule_operator` (lines 35-47): lowercase lookup with default
`RuleOperator.EQ`. -/
def convert_rule_operator (value : String) : RuleOperator :=
  match value.toLower with
  | "gt" => RuleOperator.GT
  | "lt" => RuleOperator.LT
  | "eq" => RuleOperator.EQ
  | "neq" => RuleOperator.NEQ
  | "gte" => RuleOperator.GTE
  | "lte" => RuleOperator.LTE
  | "in" => RuleOperator.IN
  | "contains" => RuleOperator.CONTAINS
  | _ => RuleOperator.EQ

/-- `convert_rule_type` (lines 50-56): lowercase lookup with default
`RuleType.ELIGIBILITY`. -/
def convert_rule_type (value : String) : RuleType :=
  match value.toLower with
  | "eligibility" => RuleType.ELIGIBILITY
  | "scoring" => RuleType.SCORING
  | _ => RuleType.ELIGIBILITY

/-- One row of `policies` as ingestion creates it; `id` is the primary key
the flush assigns. -/
structure PolicyRow where
  id : Nat
  lender_id : String
  name : String
  min_fit_score : Int
deriving DecidableEq

/-- One row of `policy_rules` as ingestion creates it. -/
structure RuleRow where
  policy_id : Nat
  parameter_key : String
  operator : RuleOperator
  value_comparison : Value
  rule_type : RuleType
  weight : Int
  failure_reason : Option String
deriving DecidableEq

/-- The database state ingestion mutates: the parameter registry, the
policies and their rules. -/
structure Store where
  params : List ParameterDefinition
  policies : List PolicyRow
  rules : List RuleRow
deriving DecidableEq

/-- The `ParameterDefinition(...)` constructed at lines 125-132 of
`ingestion_service.py` for an inline definition: data type converted from
its raw string, `is_active=True`. -/
def make_parameter (np : NewParameter) : ParameterDefinition :=
  { key_name := np.key_name
    display_label := np.display_label
    data_type := convert_data_type np.data_type
    options := np.options
    description := np.description
    is_active := true }

/-- The reconciliation loop of lines 121-134: `param_map` starts as the
fetched (active) registry snapshot keyed by `key_name`; an inline
definition is materialized only when its key is not in `param_map`, and
the map immediately gains the new key, so a later inline definition with
the same key in the same batch is skipped. -/
def reconcile_new_parameters (param_keys : List String) : List NewParameter → List ParameterDefinition
  | [] => []
  | np :: rest =>
      if param_keys.contains np.key_name then
        reconcile_new_parameters param_keys rest
      else
        make_parameter np :: reconcile_new_parameters (np.key_name :: param_keys) rest

/-- The `PolicyRule(...)` constructed at lines 150-158 for one extracted
rule dict: its `parameter_key` is taken verbatim from the dict, with no
check against the registry. -/
def make_rule (policy_id : Nat) (rd : RuleData) : RuleRow :=
  { policy_id := policy_id
    parameter_key := rd.parameter
    operator := convert_rule_operator rd.operator
    value_comparison := rd.value
    rule_type := convert_rule_type rd.type
    weight := rd.weight.getD 0
    failure_reason := rd.reason }

/-- `process_lender_pdf` of `ingestion_service.py` (lines 59-179), at the
granularity of its database effects.  The extraction call (line 115)
precedes every write; an extraction failure or unparsable output
(`Except.error`) reaches the handler at line 168 with nothing written.
On success there are TWO transactions: the reconciled new parameter
definitions are committed at line 136, and the policy plus its rules are
committed separately at line 161.  The database enforces the UNIQUE
constraint on `key_name` at the first commit (the reconciliation snapshot
holds only *active* definitions, so an inline definition whose key
matches an inactive row is materialized and then rejected, failing the
whole ingestion with nothing written) and the foreign-key constraint of
`parameter_key` at the second (a rule whose key resolves to no definition
row, active or not, makes the second commit fail wholesale: the policy
and every rule of the batch are rolled back, while the parameters of the
first commit remain). -/
def process_lender_pdf (lender_id : String) (filename : String) (st : Store)
    (extraction : Except String ExtractionResult) : Store :=
  match extraction with
  | .error _ => st
  | .ok res =>
      let parameters := st.params.filter fun p => p.is_active
      let new_defs := reconcile_new_parameters (parameters.map fun p => p.key_name) res.new_parameters
      if (new_defs.map fun p => p.key_name).any (fun k => (st.params.map fun p => p.key_name).contains k) then
        st
      else
        let st1 : Store := { st with params := st.params ++ new_defs }
        let pid := st1.policies.length
        let policy : PolicyRow :=
          { id := pid
            lender_id := lender_id
            name := "Policy from " ++ filename
            min_fit_score := 0 }
        let rules := res.rules.map (make_rule pid)
        if rules.all (fun r => (st1.params.map fun p => p.key_name).contains r.parameter_key) then
          { st1 with policies := st1.policies ++ [policy], rules := st1.rules ++ rules }
        else
          st1

/-- The value `max_score` holds after the per-rule loop: the sum of the
weights of all Scoring rules. -/
def scoring_max (rules : List PolicyRule) : Int :=
  (rules.map fun r => if r.rule_type = RuleType.SCORING then r.weight else 0).sum

/-- The value `total_score` holds after the per-rule loop: the sum of the
weights of the Scoring rules whose evaluation passed. -/
def scoring_total (form_data : List (String × Value)) (param_labels : List (String × String))
    (rules : List PolicyRule) : Int :=
  (rules.map fun r =>
    if r.rule_type = RuleType.SCORING ∧ (evaluate_rule r form_data param_labels).passed = true
    then r.weight else 0).sum

/-! Concrete inputs used by the closed theorems below. -/

/-- Scoring-only policy whose passed weights sum to 29 of a 100 maximum. -/
def c1_policy : Policy :=
  { id := "p1"
    rules := [
      { id := "r1", parameter_key := "a", operator := RuleOperator.GTE,
        value_comparison := Value.scalar (Scalar.int 0), rule_type := RuleType.SCORING,
        weight := 29, failure_reason := none },
      { id := "r2", parameter_key := "a", operator := RuleOperator.GTE,
        value_comparison := Value.scalar (Scalar.int 1000000), rule_type := RuleType.SCORING,
        weight := 71, failure_reason := none } ] }

/-- Form data for `c1_policy`: passes the weight-29 rule, fails the
weight-71 rule. -/
def c1_form_data : List (String × Value) := [("a", Value.scalar (Scalar.int 700))]

/-- A rule whose parameter is present in `c2_form_data` but bound to JSON
null. -/
def c2_rule : PolicyRule :=
  { id := "r1", parameter_key := "k", operator := RuleOperator.EQ,
    value_comparison := Value.scalar Scalar.null, rule_type := RuleType.ELIGIBILITY,
    weight := 0, failure_reason := none }

/-- Form data holding the key `"k"`, bound to JSON null. -/
def c2_form_data : List (String × Value) := [("k", Value.scalar Scalar.null)]

/-- A numeric-vs-string rule: applying `>` raises `TypeError`. -/
def c3_rule : PolicyRule :=
  { id := "r1", parameter_key := "k", operator := RuleOperator.GT,
    value_comparison := Value.scalar (Scalar.str "x"), rule_type := RuleType.ELIGIBILITY,
    weight := 0, failure_reason := none }

/-- Form data binding `"k"` to the integer 5. -/
def c3_form_data : List (String × Value) := [("k", Value.scalar (Scalar.int 5))]

/-- A `contains` rule whose threshold is the *number* 5 while the actual
value is the string "500". -/
def c5_rule : PolicyRule :=
  { id := "r1", parameter_key := "k", operator := RuleOperator.CONTAINS,
    value_comparison := Value.scalar (Scalar.int 5), rule_type := RuleType.ELIGIBILITY,
    weight := 0, failure_reason := none }

/-- Form data binding `"k"` to the string "500". -/
def c5_form_data : List (String × Value) := [("k", Value.scalar (Scalar.str "500"))]

/-- A `contains` rule whose threshold is the string "00". -/
def c5w_rule : PolicyRule :=
  { id := "r1", parameter_key := "k", operator := RuleOperator.CONTAINS,
    value_comparison := Value.scalar (Scalar.str "00"), rule_type := RuleType.ELIGIBILITY,
    weight := 0, failure_reason := none }

/-- One eligibility rule (passes) and two scoring rules of weights 10 and
5 (the first passes). -/
def c7_policy : Policy :=
  { id := "p1"
    rules := [
      { id := "r0", parameter_key := "fico_score", operator := RuleOperator.GTE,
        value_comparison := Value.scalar (Scalar.int 650), rule_type := RuleType.ELIGIBILITY,
        weight := 0, failure_reason := none },
      { id := "r1", parameter_key := "fico_score", operator := RuleOperator.GTE,
        value_comparison := Value.scalar (Scalar.int 680), rule_type := RuleType.SCORING,
        weight := 10, failure_reason := none },
      { id := "r2", parameter_key := "fico_score", operator := RuleOperator.GTE,
        value_comparison := Value.scalar (Scalar.int 750), rule_type := RuleType.SCORING,
        weight := 5, failure_reason := none } ] }

/-- Form data for `c7_policy`: a FICO score of 700. -/
def c7_form_data : List (String × Value) := [("fico_score", Value.scalar (Scalar.int 700))]

/-- A registry holding one active definition, `fico_score`. -/
def c9_store : Store :=
  { params := [
      { key_name := "fico_score", display_label := "FICO Score", data_type := DataType.NUMBER,
        options := none, description := none, is_active := true } ]
    policies := []
    rules := [] }

/-- An extraction batch with one resolvable rule (`fico_score`) and one
rule referencing the unknown key `annual_revenue`. -/
def c9_extraction : ExtractionResult :=
  { new_parameters := []
    rules := [
      { parameter := "fico_score", operator := "gte", value := Value.scalar (Scalar.int 650),
        type := "eligibility", weight := some 0, reason := none },
      { parameter := "annual_revenue", operator := "gte", value := Value.scalar (Scalar.int 100000),
        type := "eligibility", weight := some 0, reason := none } ] }

/-! Helper lemmas about the evaluator. -/

/-- When the parameter key is bound to a non-null value, the evaluator
takes the operator branch: the record carries the looked-up value and
`passed` is the caught result of the operator. -/
theorem evaluate_rule_applied (rule : PolicyRule) (fd : List (String × Value))
    (labels : List (String × String)) (v : Value)
    (h : fd.lookup rule.parameter_key = some v) (hv : v ≠ Value.scalar Scalar.null) :
    (evaluate_rule rule fd labels).actual_value = v ∧
    (evaluate_rule rule fd labels).passed =
      (match applyOperator rule.operator v rule.value_comparison with
       | .ok b => b
       | .error _ => false) := by
  simp [evaluate_rule, h, Option.getD_some, if_neg hv]

/-- When `form_data.get` yields `None` — the key is absent or bound to
null — the evaluator returns the missing-field record. -/
theorem evaluate_rule_missing (rule : PolicyRule) (fd : List (String × Value))
    (labels : List (String × String))
    (h : (fd.lookup rule.parameter_key).getD (Value.scalar Scalar.null) = Value.scalar Scalar.null) :
    evaluate_rule rule fd labels = missing_record rule labels := by
  simp [evaluate_rule, h]

/-! Claim theorems. -/

/-- C2 counterexample: the key `"k"` IS present in the form data (bound to
JSON null), yet the evaluator emits the missing-field record, and the
operator — which would have returned `True` here, since `None == None` —
is never applied.  This falsifies the claim's "if and only if the key is
not present". -/
theorem evaluate_rule_null_value_counterexample :
    (c2_form_data.lookup "k").isSome = true ∧
    evaluate_rule c2_rule c2_form_data [] = missing_record c2_rule [] ∧
    applyOperator c2_rule.operator (Value.scalar Scalar.null) c2_rule.value_comparison = Except.ok true :=
  ⟨rfl, by decide, rfl⟩

/-- C2 amended: the missing-field record (`passed=false`,
`actual_value=null`, reason "Missing required field: label", no operator
applied) is produced iff the key is absent from the form data OR bound to
JSON null — `form_data.get` conflates the two; for a key bound to any
non-null value the operator is applied. -/
theorem evaluate_rule_missing_characterization (rule : PolicyRule)
    (fd : List (String × Value)) (labels : List (String × String)) :
    (evaluate_rule rule fd labels = missing_record rule labels ↔
      (fd.lookup rule.parameter_key = none ∨
       fd.lookup rule.parameter_key = some (Value.scalar Scalar.null))) ∧
    (∀ v, fd.lookup rule.parameter_key = some v → v ≠ Value.scalar Scalar.null →
      (evaluate_rule rule fd labels).actual_value = v ∧
      ((evaluate_rule rule fd labels).passed = true ↔
        applyOperator rule.operator v rule.value_comparison = Except.ok true)) := by
  constructor
  · cases h : fd.lookup rule.parameter_key with
    | none =>
        simp only [h]
        exact iff_of_true (evaluate_rule_missing rule fd labels (by simp [h])) (Or.inl trivial)
    | some v =>
        by_cases hv : v = Value.scalar Scalar.null
        · subst hv
          simp only [h]
          exact iff_of_true (evaluate_rule_missing rule fd labels (by simp [h])) (Or.inr trivial)
        · have happ := evaluate_rule_applied rule fd labels v h hv
          constructor
          · intro heq
            have : (evaluate_rule rule fd labels).actual_value = Value.scalar Scalar.null := by
              rw [heq]; rfl
            rw [happ.1] at this
            exact absurd this hv
          · intro hOr
            rcases hOr with h1 | h1
            · exact absurd h1 (by simp)
            · exact absurd (Option.some.inj h1) hv
  · intro v h hv
    have happ := evaluate_rule_applied rule fd labels v h hv
    refine ⟨happ.1, ?_⟩
    rw [happ.2]
    cases hop : applyOperator rule.operator v rule.value_comparison with
    | ok b => cases b <;> simp
    | error e => simp

/-- C3: with the parameter key present in the form data, a runtime error
raised while applying the operator (`Except.error` in the embedding of
`try/except`) is converted to `passed = false`; the evaluator is a total
function, so evaluation of a type-incompatible rule never aborts the
batch. -/
theorem evaluate_rule_operator_error_fails (rule : PolicyRule)
    (fd : List (String × Value)) (labels : List (String × String)) (v : Value)
    (h : fd.lookup rule.parameter_key = some v)
    (herr : applyOperator rule.operator v rule.value_comparison = Except.error ()) :
    (evaluate_rule rule fd labels).passed = false := by
  by_cases hv : v = Value.scalar Scalar.null
  · subst hv
    rw [evaluate_rule_missing rule fd labels (by simp [h])]
    rfl
  · rw [(evaluate_rule_applied rule fd labels v h hv).2, herr]

/-- C3 witness: comparing the integer 5 to the string "x" with `>` raises
`TypeError`, which is caught and leaves `passed = false`. -/
theorem evaluate_rule_operator_error_fails_witness :
    (evaluate_rule c3_rule c3_form_data []).passed = false :=
  evaluate_rule_operator_error_fails c3_rule c3_form_data []
    (Value.scalar (Scalar.int 5)) rfl rfl

/-- C5 counterexample: for the `contains` rule with numeric threshold 5
and actual value "500", the string form of the threshold ("5") IS a
substring of the string form of the actual value ("500") — so the claim
predicts a pass — yet the evaluation fails: `5 in "500"` raises
`TypeError` (`'in <string>' requires string as left operand`), which is
caught as `passed = false`. -/
theorem contains_nonstring_threshold_counterexample :
    strContains (pyStr (Value.scalar (Scalar.str "500"))) (pyStr (Value.scalar (Scalar.int 5))) = true ∧
    (evaluate_rule c5_rule c5_form_data []).passed = false :=
  ⟨by decide, by decide⟩

/-- C5 amended: with the key present (non-null), a `contains` rule passes
iff `value_comparison` is itself a string and occurs as a substring of the
string form of the actual value; a non-string `value_comparison` raises
`TypeError` (no `str()` is applied to it), which is caught as a
failure. -/
theorem contains_characterization (rule : PolicyRule) (fd : List (String × Value))
    (labels : List (String × String)) (v : Value)
    (hop : rule.operator = RuleOperator.CONTAINS)
    (h : fd.lookup rule.parameter_key = some v) (hv : v ≠ Value.scalar Scalar.null) :
    ((evaluate_rule rule fd labels).passed = true ↔
      ∃ t, rule.value_comparison = Value.scalar (Scalar.str t) ∧ strContains (pyStr v) t = true) := by
  rw [(evaluate_rule_applied rule fd labels v h hv).2, hop]
  cases ht : rule.value_comparison with
  | list xs => simp [applyOperator]
  | scalar x =>
      cases x <;> simp [applyOperator]

/-- C5 witness: the string threshold "00" occurs in the string form of
the actual value "500", so the rule passes. -/
theorem contains_characterization_witness :
    (evaluate_rule c5w_rule c5_form_data []).passed = true ↔
      ∃ t, c5w_rule.value_comparison = Value.scalar (Scalar.str t) ∧
        strContains (pyStr (Value.scalar (Scalar.str "500"))) t = true :=
  contains_characterization c5w_rule c5_form_data []
    (Value.scalar (Scalar.str "500")) rfl rfl (by decide)

/-- C4 counterexample: a boolean passes the `Number` type check, because
Python's `bool` is a subclass of `int` and `isinstance(True, (int,
float))` holds — the claim's "reject boolean" is false on the code. -/
theorem validate_type_bool_accepted_as_number :
    _validate_type (Value.scalar (Scalar.bool true)) DataType.NUMBER = true := rfl

/-- C4 amended: `String` and `Select` accept exactly the string scalars;
`Number` and `Currency` accept exactly the numeric scalars (integer or
floating point) AND the booleans (Python `bool` being an `int` subclass);
`Boolean` accepts exactly the booleans.  (The accept-anything default
branch is unreachable: all five `DataType` members are handled.) -/
theorem validate_type_characterization (v : Value) :
    (_validate_type v DataType.STRING = true ↔ ∃ s, v = Value.scalar (Scalar.str s)) ∧
    (_validate_type v DataType.SELECT = true ↔ ∃ s, v = Value.scalar (Scalar.str s)) ∧
    (_validate_type v DataType.NUMBER = true ↔
      ((∃ n, v = Value.scalar (Scalar.int n)) ∨ (∃ q, v = Value.scalar (Scalar.float q)) ∨
       (∃ b, v = Value.scalar (Scalar.bool b)))) ∧
    (_validate_type v DataType.CURRENCY = true ↔
      ((∃ n, v = Value.scalar (Scalar.int n)) ∨ (∃ q, v = Value.scalar (Scalar.float q)) ∨
       (∃ b, v = Value.scalar (Scalar.bool b)))) ∧
    (_validate_type v DataType.BOOLEAN = true ↔ ∃ b, v = Value.scalar (Scalar.bool b)) := by
  cases v with
  | list xs => simp [_validate_type]
  | scalar x => cases x <;> simp [_validate_type]

/-! Helper lemmas about the per-policy loop. -/

/-- One loop iteration appends exactly the rule's evaluation record. -/
theorem policy_step_evaluations (fd : List (String × Value)) (labels : List (String × String))
    (st : LoopState) (rule : PolicyRule) :
    (policy_step fd labels st rule).evaluations = st.evaluations ++ [evaluate_rule rule fd labels] := by
  cases htype : rule.rule_type <;> cases hpass : (evaluate_rule rule fd labels).passed <;>
    simp [policy_step, htype, hpass]

/-- One loop iteration conjoins the eligibility flag with the rule's
eligibility outcome. -/
theorem policy_step_eligible (fd : List (String × Value)) (labels : List (String × String))
    (st : LoopState) (rule : PolicyRule) :
    (policy_step fd labels st rule).eligible =
      (st.eligible &&
        if rule.rule_type = RuleType.ELIGIBILITY then (evaluate_rule rule fd labels).passed
        else true) := by
  cases htype : rule.rule_type <;> cases hpass : (evaluate_rule rule fd labels).passed <;>
    simp [policy_step, htype, hpass]

/-- One loop iteration adds the weight of a passed Scoring rule to
`total_score`. -/
theorem policy_step_total (fd : List (String × Value)) (labels : List (String × String))
    (st : LoopState) (rule : PolicyRule) :
    (policy_step fd labels st rule).total_score =
      st.total_score +
        (if rule.rule_type = RuleType.SCORING ∧ (evaluate_rule rule fd labels).passed = true
         then rule.weight else 0) := by
  cases htype : rule.rule_type <;> cases hpass : (evaluate_rule rule fd labels).passed <;>
    simp [policy_step, htype, hpass]

/-- One loop iteration adds the weight of a Scoring rule to `max_score`. -/
theorem policy_step_max (fd : List (String × Value)) (labels : List (String × String))
    (st : LoopState) (rule : PolicyRule) :
    (policy_step fd labels st rule).max_score =
      st.max_score + (if rule.rule_type = RuleType.SCORING then rule.weight else 0) := by
  cases htype : rule.rule_type <;> cases hpass : (evaluate_rule rule fd labels).passed <;>
    simp [policy_step, htype, hpass]

/-- The state after the whole per-rule loop, in closed form. -/
theorem foldl_policy_step_state (fd : List (String × Value)) (labels : List (String × String))
    (rules : List PolicyRule) : ∀ st : LoopState,
    rules.foldl (policy_step fd labels) st =
      { evaluations := st.evaluations ++ rules.map fun r => evaluate_rule r fd labels
        eligible := st.eligible && rules.all fun r =>
          if r.rule_type = RuleType.ELIGIBILITY then (evaluate_rule r fd labels).passed else true
        total_score := st.total_score + scoring_total fd labels rules
        max_score := st.max_score + scoring_max rules } := by
  induction rules with
  | nil => intro st; simp [scoring_total, scoring_max]
  | cons r rs ih =>
      intro st
      rw [List.foldl_cons, ih]
      simp [policy_step_evaluations, policy_step_eligible, policy_step_total, policy_step_max,
        scoring_total, scoring_max, Bool.and_assoc, Int.add_assoc]

/-- The three observable fields of a `match_policy` result, in closed
form. -/
theorem match_policy_fields (p : Policy) (fd : List (String × Value))
    (labels : List (String × String)) :
    (match_policy p fd labels).evaluations = (p.rules.map fun r => evaluate_rule r fd labels) ∧
    (match_policy p fd labels).eligible = (p.rules.all fun r =>
      if r.rule_type = RuleType.ELIGIBILITY then (evaluate_rule r fd labels).passed else true) ∧
    (match_policy p fd labels).fit_score =
      fit_score_of
        (p.rules.all fun r =>
          if r.rule_type = RuleType.ELIGIBILITY then (evaluate_rule r fd labels).passed else true)
        (scoring_total fd labels p.rules) (scoring_max p.rules) := by
  simp [match_policy, foldl_policy_step_state fd labels p.rules]

/-- Bounds of the fit-score formula under `0 ≤ total ≤ max`. -/
theorem fit_score_of_bounds (e : Bool) (t m : Int) (h0 : 0 ≤ t) (htm : t ≤ m) :
    0 ≤ fit_score_of e t m ∧ fit_score_of e t m ≤ 100 := by
  unfold fit_score_of
  by_cases hm : m > 0
  · rw [if_pos hm]
    obtain ⟨tn, rfl⟩ := Int.eq_ofNat_of_zero_le h0
    obtain ⟨mn, rfl⟩ := Int.eq_ofNat_of_zero_le (le_trans h0 htm)
    have hmn : 0 < mn := by exact_mod_cast hm
    have htmn : tn ≤ mn := by exact_mod_cast htm
    have hdiv : Int.tdiv ((tn : Int) * 100) (mn : Int) = ((tn * 100 / mn : Nat) : Int) := rfl
    rw [hdiv]
    have hb : tn * 100 / mn ≤ 100 := by
      calc tn * 100 / mn ≤ mn * 100 / mn :=
            Nat.div_le_div_right (Nat.mul_le_mul_right 100 htmn)
        _ = 100 := Nat.mul_div_cancel_left 100 hmn
    constructor
    · exact_mod_cast Nat.zero_le _
    · exact_mod_cast hb
  · rw [if_neg hm]
    cases e <;> simp

/-- A policy with no Scoring rule has `max_score = 0`. -/
theorem scoring_max_eq_zero (rules : List PolicyRule)
    (h : ∀ r ∈ rules, r.rule_type ≠ RuleType.SCORING) : scoring_max rules = 0 := by
  apply List.sum_eq_zero
  intro x hx
  obtain ⟨r, hr, rfl⟩ := List.mem_map.mp hx
  rw [if_neg (h r hr)]

/-- C6: a match result is eligible iff every Eligibility rule's
evaluation record passed; with no Eligibility rules the flag stays at its
initial `True`.  (The result's records are exactly
`p.rules.map (evaluate_rule · form_data labels)`, in rule order, so the
quantification over rules is the quantification over Eligibility-type
records of the result.) -/
theorem match_policy_eligible_iff (p : Policy) (fd : List (String × Value))
    (labels : List (String × String)) :
    ((match_policy p fd labels).eligible = true ↔
      ∀ r ∈ p.rules, r.rule_type = RuleType.ELIGIBILITY →
        (evaluate_rule r fd labels).passed = true) := by
  rw [(match_policy_fields p fd labels).2.1, List.all_eq_true]
  constructor
  · intro hall r hr htype
    have := hall r hr
    rwa [if_pos htype] at this
  · intro himp r hr
    by_cases htype : r.rule_type = RuleType.ELIGIBILITY
    · rw [if_pos htype]
      exact himp r hr htype
    · rw [if_neg htype]

/-- C7: with all rule weights nonnegative, the fit score lies in
`[0, 100]`; with no Scoring rules it is 100 when eligible and 0 when
not. -/
theorem match_policy_fit_score_bounds (p : Policy) (fd : List (String × Value))
    (labels : List (String × String)) (hw : ∀ r ∈ p.rules, 0 ≤ r.weight) :
    0 ≤ (match_policy p fd labels).fit_score ∧
    (match_policy p fd labels).fit_score ≤ 100 ∧
    ((∀ r ∈ p.rules, r.rule_type ≠ RuleType.SCORING) →
      ((match_policy p fd labels).eligible = true → (match_policy p fd labels).fit_score = 100) ∧
      ((match_policy p fd labels).eligible = false → (match_policy p fd labels).fit_score = 0)) := by
  have hfields := match_policy_fields p fd labels
  have h0 : 0 ≤ scoring_total fd labels p.rules := by
    apply List.sum_nonneg
    intro x hx
    obtain ⟨r, hr, rfl⟩ := List.mem_map.mp hx
    by_cases hc : r.rule_type = RuleType.SCORING ∧ (evaluate_rule r fd labels).passed = true
    · rw [if_pos hc]; exact hw r hr
    · rw [if_neg hc]
  have htm : scoring_total fd labels p.rules ≤ scoring_max p.rules := by
    apply List.sum_le_sum
    intro r hr
    by_cases hc : r.rule_type = RuleType.SCORING ∧ (evaluate_rule r fd labels).passed = true
    · rw [if_pos hc, if_pos hc.1]
    · rw [if_neg hc]
      by_cases hs : r.rule_type = RuleType.SCORING
      · rw [if_pos hs]; exact hw r hr
      · rw [if_neg hs]
  have hbounds := fit_score_of_bounds
    (p.rules.all fun r =>
      if r.rule_type = RuleType.ELIGIBILITY then (evaluate_rule r fd labels).passed else true)
    _ _ h0 htm
  refine ⟨hfields.2.2 ▸ hbounds.1, hfields.2.2 ▸ hbounds.2, ?_⟩
  intro hns
  have hmax := scoring_max_eq_zero p.rules hns
  have htot : scoring_total fd labels p.rules = 0 :=
    le_antisymm (hmax ▸ htm) h0
  constructor
  · intro helig
    have hallb : (p.rules.all fun r =>
        if r.rule_type = RuleType.ELIGIBILITY then (evaluate_rule r fd labels).passed else true) = true := by
      rw [← hfields.2.1]
      exact helig
    rw [hfields.2.2, hallb, hmax, htot]
    rfl
  · intro helig
    have hallb : (p.rules.all fun r =>
        if r.rule_type = RuleType.ELIGIBILITY then (evaluate_rule r fd labels).passed else true) = false := by
      rw [← hfields.2.1]
      exact helig
    rw [hfields.2.2, hallb, hmax, htot]
    rfl

/-- C7 witness: for a concrete policy (one Eligibility rule, Scoring
weights 10 and 5) the hypotheses hold and the bounds follow. -/
theorem match_policy_fit_score_bounds_witness :
    0 ≤ (match_policy c7_policy c7_form_data []).fit_score ∧
    (match_policy c7_policy c7_form_data []).fit_score ≤ 100 ∧
    ((∀ r ∈ c7_policy.rules, r.rule_type ≠ RuleType.SCORING) →
      ((match_policy c7_policy c7_form_data []).eligible = true →
        (match_policy c7_policy c7_form_data []).fit_score = 100) ∧
      ((match_policy c7_policy c7_form_data []).eligible = false →
        (match_policy c7_policy c7_form_data []).fit_score = 0)) :=
  match_policy_fit_score_bounds c7_policy c7_form_data [] (by decide)

/-- C1: the exact-arithmetic embedding of the scorer at
`total_score = 29`, `max_score = 100` yields `floor(100*29/100) = 29`,
the value the specification's formula requires.  CPython instead
evaluates `int((29/100)*100)` in IEEE-754 binary64: `29/100` rounds to
`0.28999999999999998…`, multiplying by 100 rounds to
`28.999999999999996`, and `int()` truncates to 28 — so the emitted
`fit_score` there is 28, diverging from the claim's formula. -/
theorem match_policy_exact_fit_at_total29_max100 :
    (match_policy c1_policy c1_form_data []).fit_score = 29 ∧
    (match_policy c1_policy c1_form_data []).eligible = true := by
  decide

/-! Ingestion claims. -/

/-- C8: when the extraction call fails or returns unparsable output (the
Gemini service raises; `Except.error` here), the ingestion run leaves the
store untouched: zero new Parameter Definitions, zero new Policies, zero
new Rules — the call at line 115 of `ingestion_service.py` precedes every
database write, and the exception reaches the handler at line 168 with
nothing written or committed. -/
theorem process_lender_pdf_extraction_failure_no_mutation
    (lender_id filename : String) (st : Store) (e : String) :
    process_lender_pdf lender_id filename st (Except.error e) = st := rfl

/-- C9 counterexample: the batch `c9_extraction` holds one rule whose key
resolves in the registry (`fico_score`, present in `c9_store`) and one
whose key does not (`annual_revenue`).  The claim predicts the bad rule
alone is dropped; instead the foreign-key violation fails the whole
second commit, so ZERO rules and zero policies are materialized — the
resolvable rule is lost too. -/
theorem process_lender_pdf_batch_abort_counterexample :
    ((c9_store.params.map fun p => p.key_name).contains "fico_score" = true) ∧
    (∃ rd ∈ c9_extraction.rules, rd.parameter = "fico_score") ∧
    (process_lender_pdf "L1" "doc.pdf" c9_store (Except.ok c9_extraction)).rules = [] ∧
    (process_lender_pdf "L1" "doc.pdf" c9_store (Except.ok c9_extraction)).policies = [] := by
  refine ⟨by decide, ⟨c9_extraction.rules.head (by decide), by decide, by decide⟩, by decide, by decide⟩

/-- C9 amended: every rule that IS materialized references a key
resolving in the post-reconciliation registry (the foreign key on
`parameter_key` admits nothing else), but an unresolvable rule is not
dropped per rule: if any rule of the batch fails to resolve, the commit
fails wholesale and no policy and no rule of the batch is created (the
parameter definitions of the earlier commit persist). -/
theorem process_lender_pdf_rules_resolve (lender_id filename : String)
    (st : Store) (res : ExtractionResult) :
    (∀ r ∈ (process_lender_pdf lender_id filename st (Except.ok res)).rules, r ∉ st.rules →
      (((process_lender_pdf lender_id filename st (Except.ok res)).params.map fun p => p.key_name).contains
        r.parameter_key = true)) ∧
    ((¬ ∀ rd ∈ res.rules,
        (((st.params ++ reconcile_new_parameters
            ((st.params.filter fun p => p.is_active).map fun p => p.key_name)
            res.new_parameters).map fun p => p.key_name).contains rd.parameter = true)) →
      (process_lender_pdf lender_id filename st (Except.ok res)).rules = st.rules ∧
      (process_lender_pdf lender_id filename st (Except.ok res)).policies = st.policies) := by
  simp only [process_lender_pdf]
  split
  · constructor
    · intro r hr hnot
      exact absurd hr hnot
    · intro _
      exact ⟨rfl, rfl⟩
  · split
    · next hall =>
        constructor
        · intro r hr hnot
          rcases List.mem_append.mp hr with hold | hnew
          · exact absurd hold hnot
          · obtain ⟨rd, hrd, rfl⟩ := List.mem_map.mp hnew
            have := (List.all_eq_true.mp hall) _ hnew
            simpa using this
        · intro hbad
          exfalso
          apply hbad
          intro rd hrd
          have := (List.all_eq_true.mp hall) (make_rule st.policies.length rd)
            (List.mem_map.mpr ⟨rd, hrd, rfl⟩)
          simpa [make_rule] using this
    · constructor
      · intro r hr hnot
        exact absurd hr hnot
      · intro _
        exact ⟨rfl, rfl⟩

/-- C10: the reconciliation loop materializes, for every key `k`, exactly
one new Parameter Definition when `k` is absent from the registry
snapshot and requested by the batch, and none otherwise — duplicates
within a batch are impossible and an existing key is never re-created;
moreover ingestion only ever appends to the registry, so an existing
definition is never overwritten. -/
theorem reconcile_unique_definitions :
    (∀ (keys : List String) (nps : List NewParameter) (k : String),
      ((reconcile_new_parameters keys nps).map fun p => p.key_name).count k =
        if keys.contains k = false ∧ (nps.map fun np => np.key_name).contains k = true
        then 1 else 0) ∧
    (∀ (lender_id filename : String) (st : Store) (extraction : Except String ExtractionResult),
      ∃ tail, (process_lender_pdf lender_id filename st extraction).params = st.params ++ tail) := by
  constructor
  · intro keys nps
    induction nps generalizing keys with
    | nil => intro k; simp [reconcile_new_parameters]
    | cons np rest ih =>
        intro k
        by_cases hmem : keys.contains np.key_name
        · rw [reconcile_new_parameters, if_pos hmem, ih keys k]
          by_cases hk : k = np.key_name
          · subst hk
            have hmem1 : np.key_name ∈ keys := by simpa using hmem
            simp [hmem, hmem1]
          · simp [List.contains_cons, hk, Ne.symm hk]
        · rw [reconcile_new_parameters, if_neg hmem]
          by_cases hk : k = np.key_name
          · subst hk
            rw [List.map_cons, List.count_cons]
            rw [ih (np.key_name :: keys) np.key_name]
            have hmem1 : np.key_name ∉ keys := by simpa using hmem
            simp [make_parameter, hmem, hmem1]
          · rw [List.map_cons, List.count_cons]
            rw [ih (np.key_name :: keys) k]
            simp only [make_parameter]
            simp [List.contains_cons, hk, Ne.symm hk]
  · intro lender_id filename st extraction
    cases extraction with
    | error e => exact ⟨[], by simp [process_lender_pdf]⟩
    | ok res =>
        simp only [process_lender_pdf]
        split
        · exact ⟨[], by simp⟩
        · split
          · exact ⟨_, rfl⟩
          · exact ⟨_, rfl⟩

end LenderMatching
